import Mathlib

/-!
# Verification of the gltf-ktxer index-resolution and buffer-packing core

Shallow embedding of `src/gltf_ktxer/src/gltf.rs`, `lib.rs` and `error.rs`.
Rust `usize` values are modelled as `Nat`; where the source can overflow or
underflow a `usize`, the release-mode wrapping semantics is modelled
explicitly modulo `2^64`.  Byte vectors/slices are `List Nat`,
`serde_json::Value` is the `Json` inductive below, `HashMap`/`HashSet` are
association lists with first-match lookup.  Fallible Rust functions
(returning `Result<T, Error>`) become `Except Error T`; a Rust panic
(failed `assert!` or slice-index panic) is modelled by the distinguished
`Error.Panic` constructor, which no `error.rs` variant corresponds to.
-/

namespace GltfKtxer

/-- `usize::MAX` on a 64-bit target. -/
def usizeMax : Nat := 2 ^ 64 - 1

/-- Number of values of `usize` on a 64-bit target (`2^64`). -/
def usizeSize : Nat := 2 ^ 64

/-- Model of `serde_json::Value` (numbers restricted to `u64`, which is all
`as_u64` can observe). -/
inductive Json where
  | null
  | bool (b : Bool)
  | num (n : Nat)
  | str (s : String)
  | arr (elems : List Json)
  | obj (fields : List (String × Json))

/-- `Value::as_object()` returning the key/value list of an object. -/
def Json.as_object : Json → Option (List (String × Json))
  | .obj fields => some fields
  | _ => none

/-- `Value::as_u64()`. -/
def Json.as_u64 : Json → Option Nat
  | .num n => some n
  | _ => none

/-- `serde_json::Map::get`: first binding of the key, if any. -/
def jsonObjGet : List (String × Json) → String → Option Json
  | [], _ => none
  | (k, v) :: rest, key => if k = key then some v else jsonObjGet rest key

/-- `map[key] = value` on a `serde_json` object: replace the value of an
existing binding in place, or append a new binding. -/
def jsonObjSet : List (String × Json) → String → Json → List (String × Json)
  | [], key, value => [(key, value)]
  | (k, v) :: rest, key, value =>
    if k = key then (k, value) :: rest else (k, v) :: jsonObjSet rest key value

/-- `GltfIndex<T>` from `gltf.rs`: a `usize` wrapper using `usize::MAX` as
the sentinel for "undefined"; `α` is the phantom entity tag. -/
structure GltfIndex (α : Type) where
  raw : Nat

instance : DecidableEq (GltfIndex α) := fun a b =>
  decidable_of_iff (a.raw = b.raw) (by cases a; cases b; simp)

/-- `GltfIndex::UNDEFINED`. -/
def GltfIndex.UNDEFINED : GltfIndex α := ⟨usizeMax⟩

/-- `GltfIndex::of`. -/
def GltfIndex.of (x : Nat) : GltfIndex α := ⟨x⟩

/-- `GltfIndex::is_undefined`. -/
def GltfIndex.is_undefined (i : GltfIndex α) : Bool := i.raw == usizeMax

/-- `GltfIndex::is_defined`. -/
def GltfIndex.is_defined (i : GltfIndex α) : Bool := !i.is_undefined

/-- `GltfIndex::raw_idx`. -/
def GltfIndex.raw_idx (i : GltfIndex α) : Nat := i.raw

/-- The data fed to the hasher by `impl Hash for GltfIndex<T>`
(`self.0.hash(state)`: only the raw integer). -/
def GltfIndex.hashData (i : GltfIndex α) : Nat := i.raw

/-- The `From<GltfIndex<A>> for GltfIndex<B>` conversions in the source
(e.g. buffer index reinterpreted as an index into resolved buffer datas):
copy the raw value, change the phantom tag. -/
def GltfIndex.retag (i : GltfIndex α) : GltfIndex β := ⟨i.raw⟩

/-- `GltfBuffer` (`gltf.rs`): `uri`, declared `byteLength`, passthrough
JSON fields. `GltfUri` is a newtype over `String`, modelled as `String`. -/
structure GltfBuffer where
  uri : Option String
  byte_length : Nat
  name : Json
  extensions : Json
  extras : Json

/-- `GltfBufferView` (`gltf.rs`). -/
structure GltfBufferView where
  buffer : GltfIndex GltfBuffer
  byte_offset : Nat
  byte_length : Nat
  byte_stride : Option Nat
  target : Option Nat
  name : Json
  extensions : Json
  extras : Json

/-- `GltfSampler` (`gltf.rs`): empty marker struct, used only as a phantom
tag for texture sampler indices. -/
inductive GltfSampler where
  | mk

/-- `GltfImage` (`gltf.rs`). -/
structure GltfImage where
  uri : Option String
  mime_type : Option String
  buffer_view : GltfIndex GltfBufferView
  name : Json
  extensions : Json
  extras : Json

/-- `GltfTexture` (`gltf.rs`). -/
structure GltfTexture where
  sampler : GltfIndex GltfSampler
  source : GltfIndex GltfImage
  name : Json
  extensions : Json
  extras : Json

/-- `U8VecOrSlice` (`gltf.rs`): owned decoded bytes or a borrowed
sub-slice; the borrow is erased, only the constructor tag is kept. -/
inductive U8VecOrSlice where
  | V (items : List Nat)
  | S (items : List Nat)

/-- The byte sequence behind either constructor (`Deref for U8VecOrSlice`). -/
def U8VecOrSlice.bytes : U8VecOrSlice → List Nat
  | .V items => items
  | .S items => items

/-- `U8VecOrSlice::len`. -/
def U8VecOrSlice.len (u : U8VecOrSlice) : Nat := u.bytes.length

/-- The `Error` enum from `error.rs`.  `ImageHasNoSources` and
`TextureHasInvalidExtensions` are referenced from `lib.rs` although missing
from `error.rs`; `Panic` models a Rust panic (it corresponds to no
`error.rs` variant).  Payloads of wrapped external errors
(`image::ImageError`, `serde_json::Error`, `base64::DecodeError`) are
dropped. -/
inductive Error where
  | Image
  | Serde
  | BufferHadNoUri (idx : Nat)
  | BufferUriMissingData (uri : Option String)
  | BufferUriBadBase64
  | BufferNotLongEnough (expected_bytes got_bytes : Nat)
  | BufferViewSizeOOB (buffer_len buffer_view_off buffer_view_len : Nat)
  | IdxNotSet (list_name : String)
  | IdxOOB (list_name : String) (idx num : Nat)
  | ExpectedList (key : String)
  | ImageNeedsDataUriXorBufferView (uri : Option String)
      (buffer_view : GltfIndex GltfBufferView)
  | ImageCouldntFindFormat
  | ImageClaimedKtx2ButWasNot
  | ImageHasNoSources
  | TextureHasInvalidExtensions
  | Panic (msg : String)

/-- `GltfIndex::idx_within` (`gltf.rs` lines 29-37). -/
def GltfIndex.idx_within (i : GltfIndex α) (list_name : String) (list_len : Nat) :
    Except Error (Option Nat) :=
  if i.is_undefined then
    .ok none
  else if i.raw ≥ list_len then
    .error (.IdxOOB list_name i.raw list_len)
  else
    .ok (some i.raw)

/-- `GltfList::gltf_index` for `Vec<T>` (`gltf.rs` lines 70-75).
`idx_within` guarantees the returned position is in bounds, so the `get?`
always yields `some`. -/
def gltf_index (xs : List α) (idx : GltfIndex α) (list_name : String) :
    Except Error (Option α) :=
  match idx.idx_within list_name xs.length with
  | .error e => .error e
  | .ok none => .ok none
  | .ok (some i) => .ok (xs.get? i)

/-- `GltfList::gltf_index_required` (`gltf.rs` lines 63-68). -/
def gltf_index_required (xs : List α) (idx : GltfIndex α) (list_name : String) :
    Except Error α :=
  match gltf_index xs idx list_name with
  | .error e => .error e
  | .ok none => .error (.IdxNotSet list_name)
  | .ok (some d) => .ok d

/-- `U8VecOrSlice::of_sliced_vec` (`gltf.rs` lines 231-237): borrow the
first `len` bytes, failing if the vector is shorter than `len`. -/
def U8VecOrSlice.of_sliced_vec (v : List Nat) (len : Nat) : Except Error U8VecOrSlice :=
  if len > v.length then
    .error (.BufferNotLongEnough len v.length)
  else
    .ok (.S (v.take len))

/-- `U8VecOrSlice::of_owned_vec` (`gltf.rs` lines 238-247): after the
length check the source runs `for _ in 0..(len - v.len()) { v.pop(); }`.
`len - v.len()` is a `usize` subtraction: when `len < v.len()` it
underflows (panic in debug builds; here the default release-mode wrapping
is modelled), so the loop pops `(len - v.len()) mod 2^64` times, and
popping beyond the vector's length leaves it empty. -/
def U8VecOrSlice.of_owned_vec (v : List Nat) (len : Nat) : Except Error U8VecOrSlice :=
  if len > v.length then
    .error (.BufferNotLongEnough len v.length)
  else
    let pops := if v.length ≤ len then len - v.length else usizeSize - (v.length - len)
    .ok (.V (v.take (v.length - pops)))

/-- Key lookup in a `HashMap<Option<String>, Vec<u8>>` (the external
binary blob map), as an association list. -/
def blobGet : List (Option String × List Nat) → Option String → Option (List Nat)
  | [], _ => none
  | (k, v) :: rest, key => if k = key then some v else blobGet rest key

/-- One base64 character of the `STANDARD` alphabet to its 6-bit value. -/
def b64val (c : Char) : Option Nat :=
  if 'A' ≤ c ∧ c ≤ 'Z' then some (c.toNat - 65)
  else if 'a' ≤ c ∧ c ≤ 'z' then some (c.toNat - 97 + 26)
  else if '0' ≤ c ∧ c ≤ '9' then some (c.toNat - 48 + 52)
  else if c = '+' then some 62
  else if c = '/' then some 63
  else none

/-- `BASE64_STANDARD.decode` on the character list: canonical padding
required, standard alphabet, non-zero trailing bits rejected.  Any
failure is surfaced as `BufferUriBadBase64`, matching the `#[from]`
conversion of `base64::DecodeError` in `error.rs`. -/
def b64decodeChars : List Char → Except Error (List Nat)
  | [] => .ok []
  | a :: b :: c :: d :: rest =>
    match b64val a, b64val b with
    | some va, some vb =>
      if c = '=' then
        if d = '=' ∧ rest = [] ∧ vb % 16 = 0 then
          .ok [va * 4 + vb / 16]
        else
          .error .BufferUriBadBase64
      else
        match b64val c with
        | some vc =>
          if d = '=' then
            if rest = [] ∧ vc % 4 = 0 then
              .ok [va * 4 + vb / 16, (vb % 16) * 16 + vc / 4]
            else
              .error .BufferUriBadBase64
          else
            match b64val d with
            | some vd =>
              match b64decodeChars rest with
              | .ok tail => .ok ((va * 4 + vb / 16) :: ((vb % 16) * 16 + vc / 4) :: ((vc % 4) * 64 + vd) :: tail)
              | .error e => .error e
            | none => .error .BufferUriBadBase64
        | none => .error .BufferUriBadBase64
    | _, _ => .error .BufferUriBadBase64
  | _ => .error .BufferUriBadBase64

/-- `BASE64_STANDARD.decode` on a `String`. -/
def base64_decode (s : String) : Except Error (List Nat) :=
  b64decodeChars s.toList

/-- `str::strip_prefix` on character lists. -/
def stripPrefChars : List Char → List Char → Option (List Char)
  | [], s => some s
  | _ :: _, [] => none
  | p :: ps, c :: cs => if c = p then stripPrefChars ps cs else none

/-- `base64str_from_data_uri` (`gltf.rs` lines 309-324): strip `data:`,
then one of the two permitted media types, then `;base64,` or `,`,
returning the remaining payload. -/
def base64chars_from_data_uri (l : List Char) : Option (List Char) :=
  match stripPrefChars "data:".toList l with
  | none => none
  | some l1 =>
    match
      (match stripPrefChars "application/octet-stream".toList l1 with
       | some l2 => some l2
       | none => stripPrefChars "application/gltf-buffer".toList l1) with
    | none => none
    | some l2 =>
      match stripPrefChars ";base64,".toList l2 with
      | some l3 => some l3
      | none => stripPrefChars ",".toList l2

/-- `base64str_from_data_uri` at the `String` level. -/
def base64str_from_data_uri (uri : String) : Option String :=
  (base64chars_from_data_uri uri.toList).map String.mk

/-- `GltfBuffer::dump_data` (`gltf.rs` lines 97-118). -/
def GltfBuffer.dump_data (b : GltfBuffer) (idx : Nat)
    (binaries : List (Option String × List Nat)) : Except Error U8VecOrSlice :=
  match b.uri with
  | none =>
    if idx = 0 then
      match blobGet binaries none with
      | some data => U8VecOrSlice.of_sliced_vec data b.byte_length
      | none => .error (.BufferUriMissingData none)
    else
      .error (.BufferHadNoUri idx)
  | some uri =>
    match base64str_from_data_uri uri with
    | some data =>
      match base64_decode data with
      | .error e => .error e
      | .ok v => U8VecOrSlice.of_owned_vec v b.byte_length
    | none =>
      match blobGet binaries (some uri) with
      | some data => U8VecOrSlice.of_sliced_vec data b.byte_length
      | none => .error (.BufferUriMissingData (some uri))

/-- `GltfBufferView::slice_from` (`gltf.rs` lines 151-159).  The bound
check `byte_offset + byte_length > buffer.len()` is a `usize` addition;
the release-mode wrap modulo `2^64` is modelled, and the slice-index
panic that the wrapped range `byte_offset..total` would trigger when
`total < byte_offset` is modelled as `Error.Panic`. -/
def GltfBufferView.slice_from (v : GltfBufferView) (buffer_datas : List U8VecOrSlice) :
    Except Error (List Nat) :=
  match gltf_index_required buffer_datas v.buffer.retag "buffers" with
  | .error e => .error e
  | .ok buffer =>
    let total := (v.byte_offset + v.byte_length) % usizeSize
    if total > buffer.len then
      .error (.BufferViewSizeOOB buffer.len v.byte_offset v.byte_length)
    else if v.byte_offset ≤ total then
      .ok ((buffer.bytes.drop v.byte_offset).take (total - v.byte_offset))
    else
      .error (.Panic "slice index starts after it ends")

/-- `GltfImage::dump_data` (`gltf.rs` lines 200-223).  The source matches
`(Some(uri), GltfIndex::UNDEFINED)`, then `(None, idx) if idx.is_defined()`,
then falls through to the mutual-exclusion error. -/
def GltfImage.dump_data (img : GltfImage) (buffer_views : List GltfBufferView)
    (buffer_datas : List U8VecOrSlice)
    (binaries : List (Option String × List Nat)) : Except Error U8VecOrSlice :=
  match img.uri with
  | some uri =>
    if img.buffer_view = GltfIndex.UNDEFINED then
      match base64str_from_data_uri uri with
      | some data =>
        match base64_decode data with
        | .error e => .error e
        | .ok v => U8VecOrSlice.of_owned_vec v v.length
      | none =>
        match blobGet binaries (some uri) with
        | some data => U8VecOrSlice.of_sliced_vec data data.length
        | none => .error (.BufferUriMissingData (some uri))
    else
      .error (.ImageNeedsDataUriXorBufferView (some uri) img.buffer_view)
  | none =>
    if img.buffer_view.is_defined then
      match gltf_index_required buffer_views img.buffer_view "bufferViews" with
      | .error e => .error e
      | .ok view =>
        match view.slice_from buffer_datas with
        | .error e => .error e
        | .ok s => .ok (.S s)
    else
      .error (.ImageNeedsDataUriXorBufferView none img.buffer_view)

/-- The glTF JSON document (`GltfDoc` in `gltf.rs`), restricted to the
array-valued keys the core reads.  `none` models an absent key; `some`
models a present array whose elements deserialize to the typed entity
(serde deserialization of well-typed entries is modelled as the
identity).  `materials` entries are read as raw JSON by the sRGB scan. -/
structure GltfDocModel where
  buffers : Option (List GltfBuffer)
  bufferViews : Option (List GltfBufferView)
  images : Option (List GltfImage)
  textures : Option (List GltfTexture)
  materials : Option (List Json)

/-- `Input::get_list` (`lib.rs` lines 18-23): absent key is an empty
list. -/
def Input.get_list (lst : Option (List α)) : List α :=
  lst.getD []

/-- `Input::get_gltf_index` (`lib.rs` lines 24-35): reads the raw JSON
list.  When the key is absent the source's catch-all arm returns
`Ok(None)` (see the `TODO` comment in the source noting this produces the
wrong error downstream).  `idx_within` guarantees the indexing in the
`Some` branch is in bounds. -/
def Input.get_gltf_index (lst : Option (List α)) (idx : GltfIndex α)
    (list_name : String) : Except Error (Option α) :=
  match lst with
  | some array =>
    match idx.idx_within list_name array.length with
    | .error e => .error e
    | .ok (some i) => .ok (array.get? i)
    | .ok none => .ok none
  | none => .ok none

/-- `Input::get_gltf_index_required` (`lib.rs` lines 36-41). -/
def Input.get_gltf_index_required (lst : Option (List α)) (idx : GltfIndex α)
    (list_name : String) : Except Error α :=
  match Input.get_gltf_index lst idx list_name with
  | .error e => .error e
  | .ok none => .error (.IdxNotSet list_name)
  | .ok (some d) => .ok d

/-- The loop of `pack_buffer_views` (`lib.rs` lines 93-118), with the two
accumulators `new_buffer_views` and `new_buffer` explicit.  Each `Ok`
item appends a rewritten view (`buffer` forced to 0, `byte_offset` set to
`data.len()` as in the source) and the data, then zero-pads the buffer to
a multiple of 4 via `resize`; an `Err` item aborts.  The `assert!` that
the length is 4-aligned always succeeds (proved below) and is omitted. -/
def pack_buffer_views_loop :
    List (Except Error (GltfBufferView × List Nat)) → List GltfBufferView →
    List Nat → Except Error (List GltfBufferView × List Nat)
  | [], new_buffer_views, new_buffer => .ok (new_buffer_views, new_buffer)
  | .error e :: _, _, _ => .error e
  | .ok (buffer_view, data) :: rest, new_buffer_views, new_buffer =>
    let new_buffer_views :=
      new_buffer_views ++
        [{ buffer_view with buffer := GltfIndex.of 0, byte_offset := data.length }]
    let new_buffer := new_buffer ++ data
    let new_buffer :=
      if new_buffer.length % 4 ≠ 0 then
        new_buffer ++ List.replicate (4 - new_buffer.length % 4) 0
      else
        new_buffer
    pack_buffer_views_loop rest new_buffer_views new_buffer

/-- `pack_buffer_views` (`lib.rs` lines 87-121). -/
def pack_buffer_views (iter : List (Except Error (GltfBufferView × List Nat))) :
    Except Error (List GltfBufferView × List Nat) :=
  pack_buffer_views_loop iter [] []

/-- `texture_ktx_source` (`lib.rs` lines 133-142): read
`extensions["KHR_texture_basisu"]["source"]` as a `u64`. -/
def texture_ktx_source (texture : GltfTexture) : Option (GltfIndex GltfImage) :=
  match texture.extensions.as_object with
  | none => none
  | some ext =>
    match jsonObjGet ext "KHR_texture_basisu" with
    | none => none
    | some basisu =>
      match basisu.as_object with
      | none => none
      | some basisuObj =>
        match jsonObjGet basisuObj "source" with
        | none => none
        | some src => (src.as_u64).map GltfIndex.of

/-- `set_texture_ktx_source` (`lib.rs` lines 143-160): `assert!` that the
new index is defined (a failing assert is a panic), then write
`extensions["KHR_texture_basisu"] = {"source": new_idx}`, creating the
extensions object when it was `Null` and failing on any other non-object
value. -/
def set_texture_ktx_source (texture : GltfTexture) (new_idx : GltfIndex GltfImage) :
    Except Error GltfTexture :=
  if new_idx.is_defined then
    match texture.extensions with
    | .obj ext =>
      .ok { texture with
              extensions := .obj (jsonObjSet ext "KHR_texture_basisu"
                (.obj [("source", .num new_idx.raw_idx)])) }
    | .null =>
      .ok { texture with
              extensions := .obj (jsonObjSet [] "KHR_texture_basisu"
                (.obj [("source", .num new_idx.raw_idx)])) }
    | _ => .error .TextureHasInvalidExtensions
  else
    .error (.Panic "assert new_idx.is_defined failed")

/-- `material_diffuse_tex` (`lib.rs` lines 162-172). -/
def material_diffuse_tex (mat : Json) : Option (GltfIndex GltfTexture) :=
  match mat.as_object with
  | none => none
  | some m =>
    match jsonObjGet m "pbrMetallicRoughness" with
    | none => none
    | some pbr =>
      match pbr.as_object with
      | none => none
      | some pbrObj =>
        match jsonObjGet pbrObj "baseColorTexture" with
        | none => none
        | some tex =>
          match tex.as_object with
          | none => none
          | some texObj =>
            match jsonObjGet texObj "index" with
            | none => none
            | some i => (i.as_u64).map GltfIndex.of

/-- `material_emissive_tex` (`lib.rs` lines 173-181). -/
def material_emissive_tex (mat : Json) : Option (GltfIndex GltfTexture) :=
  match mat.as_object with
  | none => none
  | some m =>
    match jsonObjGet m "emissiveTexture" with
    | none => none
    | some tex =>
      match tex.as_object with
      | none => none
      | some texObj =>
        match jsonObjGet texObj "index" with
        | none => none
        | some i => (i.as_u64).map GltfIndex.of

/-- `HashSet::insert` modelled on a duplicate-free list. -/
def setInsert (s : List (GltfIndex GltfTexture)) (x : GltfIndex GltfTexture) :
    List (GltfIndex GltfTexture) :=
  if s.contains x then s else s ++ [x]

/-- The body of the `get_srgb_texture_indices` loop for one material. -/
def srgbInsertMat (s : List (GltfIndex GltfTexture)) (mat : Json) :
    List (GltfIndex GltfTexture) :=
  let s :=
    match material_diffuse_tex mat with
    | some diffuse => setInsert s diffuse
    | none => s
  match material_emissive_tex mat with
  | some emissive => setInsert s emissive
  | none => s

/-- `get_srgb_texture_indices` (`lib.rs` lines 183-196): scan the raw
`materials` array (absent key: empty set). -/
def get_srgb_texture_indices (doc : GltfDocModel) : List (GltfIndex GltfTexture) :=
  match doc.materials with
  | some materials => materials.foldl srgbInsertMat []
  | none => []

/-- `image::ImageFormat` is an external crate enum; only its identity is
needed here, so it is modelled as an opaque tag. -/
def ImageFormat : Type := String

/-- `ImageReencodeFormat` (`lib.rs` lines 203-210). -/
inductive ImageReencodeFormat where
  | Basic (fmt : ImageFormat)
  | Ktx (basis_compression_quality : Option Nat) (transcoded_to_bc1_or_bc3 : Bool)

/-- `Params` (`lib.rs` lines 212-216). -/
structure Params where
  uncompressed_format : ImageFormat
  ktx_basis_compression_quality : Option Nat
  ktx_transcode_to_bc1_or_bc3 : Bool

/-- `ImageReencodeJob` (`lib.rs` lines 227-233). -/
structure ImageReencodeJob where
  data : List Nat
  data_mime_type : String
  data_used_as_srgb : Bool
  reencode_as : ImageReencodeFormat
  preexisting_buffer_view_idx : GltfIndex GltfBufferView

/-- `ReencodeJobs` (`lib.rs` lines 198-201). -/
structure ReencodeJobs where
  new_textures : List GltfTexture
  new_images : List ImageReencodeJob

/-- The mutable state captured by the `lookup_old_img` closure in
`get_reencode_jobs`: the job list `new_images` and the HashMap
`old_image_idx_to_new_image_idx` (as an association list; inserts append
because the closure only inserts keys that are absent). -/
structure ReencodeState where
  new_images : List ImageReencodeJob
  idxMap : List (GltfIndex GltfImage × GltfIndex GltfImage)

/-- `HashMap::get` on the lookup table. -/
def mapFind : List (GltfIndex GltfImage × GltfIndex GltfImage) →
    GltfIndex GltfImage → Option (GltfIndex GltfImage)
  | [], _ => none
  | (k, v) :: rest, key => if k = key then some v else mapFind rest key

/-- The `lookup_old_img` closure (`lib.rs` lines 249-264): return the
cached new index for `old_img_idx`, or create one job at the next
position, record it in the table, and return its index.  The
`gltf_index_required` call happens while building the job, before the
push, so its error aborts without changing the state. -/
def lookup_old_img (images : List GltfImage) (st : ReencodeState)
    (old_img_idx : GltfIndex GltfImage) (srgb : Bool) (initial_data : List Nat)
    (initial_data_mime_type : String) (reencode_as : ImageReencodeFormat) :
    Except Error (ReencodeState × GltfIndex GltfImage) :=
  match mapFind st.idxMap old_img_idx with
  | some new_img_idx => .ok (st, new_img_idx)
  | none =>
    let new_img_idx : GltfIndex GltfImage := GltfIndex.of st.new_images.length
    match gltf_index_required images old_img_idx "images" with
    | .error e => .error e
    | .ok img =>
      .ok ({ new_images := st.new_images ++
               [{ data := initial_data
                  data_mime_type := initial_data_mime_type
                  data_used_as_srgb := srgb
                  reencode_as := reencode_as
                  preexisting_buffer_view_idx := img.buffer_view }]
             idxMap := st.idxMap ++ [(old_img_idx, new_img_idx)] },
           new_img_idx)

/-- The `img_src` resolution for one texture in `get_reencode_jobs`
(`lib.rs` lines 272-289): try the plain `source` image, else the
`KHR_texture_basisu` image (checking the 12-byte KTX2 magic).
`guessMime` is `image::guess_format(..)?.to_mime_type()`, an external
collaborator passed as a parameter. -/
def texImgSrc (doc : GltfDocModel) (binaries : List (Option String × List Nat))
    (guessMime : List Nat → Except Error String)
    (buffer_views : List GltfBufferView) (buffer_datas : List U8VecOrSlice)
    (unoptimized_img optimized_img : GltfIndex GltfImage) :
    Except Error (Option (List Nat × String)) :=
  match Input.get_gltf_index doc.images unoptimized_img "images" with
  | .error e => .error e
  | .ok (some img) =>
    match img.dump_data buffer_views buffer_datas binaries with
    | .error e => .error e
    | .ok data =>
      match
        (match img.mime_type with
         | some mime_type => Except.ok mime_type
         | none => guessMime data.bytes) with
      | .error e => .error e
      | .ok mime_type => .ok (some (data.bytes, mime_type))
  | .ok none =>
    match Input.get_gltf_index doc.images optimized_img "images" with
    | .error e => .error e
    | .ok (some img) =>
      match img.dump_data buffer_views buffer_datas binaries with
      | .error e => .error e
      | .ok data =>
        if [0xAB, 0x4B, 0x54, 0x58, 0x20, 0x32, 0x30, 0xBB,
            0x0D, 0x0A, 0x1A, 0x0A].isPrefixOf data.bytes then
          .ok (some (data.bytes, "image/ktx2"))
        else
          .error .ImageClaimedKtx2ButWasNot
    | .ok none => .ok none

/-- One iteration of the texture loop in `get_reencode_jobs` (`lib.rs`
lines 266-315): resolve `img_src`, then rewrite `tex.source` via
`lookup_old_img(unoptimized_img, ..)` and the basisu extension via
`lookup_old_img(optimized_img, ..)`; no resolved source is an error. -/
def processTexture (doc : GltfDocModel) (binaries : List (Option String × List Nat))
    (guessMime : List Nat → Except Error String) (params : Params)
    (images : List GltfImage) (buffer_views : List GltfBufferView)
    (buffer_datas : List U8VecOrSlice)
    (srgb_texture_indices : List (GltfIndex GltfTexture))
    (st : ReencodeState) (tex_idx : Nat) (tex : GltfTexture) :
    Except Error (ReencodeState × GltfTexture) :=
  let data_used_as_srgb := srgb_texture_indices.contains (GltfIndex.of tex_idx)
  let unoptimized_img := tex.source
  let optimized_img := (texture_ktx_source tex).getD GltfIndex.UNDEFINED
  match texImgSrc doc binaries guessMime buffer_views buffer_datas
      unoptimized_img optimized_img with
  | .error e => .error e
  | .ok none => .error .ImageHasNoSources
  | .ok (some (initial_data, initial_data_mime_type)) =>
    match lookup_old_img images st unoptimized_img data_used_as_srgb
        initial_data initial_data_mime_type
        (.Basic params.uncompressed_format) with
    | .error e => .error e
    | .ok (st, new_source) =>
      let tex := { tex with source := new_source }
      match lookup_old_img images st optimized_img data_used_as_srgb
          initial_data initial_data_mime_type
          (.Ktx params.ktx_basis_compression_quality
            params.ktx_transcode_to_bc1_or_bc3) with
      | .error e => .error e
      | .ok (st, new_ktx_source) =>
        match set_texture_ktx_source tex new_ktx_source with
        | .error e => .error e
        | .ok tex => .ok (st, tex)

/-- The texture loop of `get_reencode_jobs`, threading the state and
rebuilding the (in-place mutated) texture list. -/
def reencodeLoop (doc : GltfDocModel) (binaries : List (Option String × List Nat))
    (guessMime : List Nat → Except Error String) (params : Params)
    (images : List GltfImage) (buffer_views : List GltfBufferView)
    (buffer_datas : List U8VecOrSlice)
    (srgb_texture_indices : List (GltfIndex GltfTexture)) :
    List GltfTexture → Nat → ReencodeState →
    Except Error (List GltfTexture × ReencodeState)
  | [], _, st => .ok ([], st)
  | tex :: rest, tex_idx, st =>
    match processTexture doc binaries guessMime params images buffer_views
        buffer_datas srgb_texture_indices st tex_idx tex with
    | .error e => .error e
    | .ok (st, tex) =>
      match reencodeLoop doc binaries guessMime params images buffer_views
          buffer_datas srgb_texture_indices rest (tex_idx + 1) st with
      | .error e => .error e
      | .ok (texs, st) => .ok (tex :: texs, st)

/-- The buffer-resolution prologue shared by `pack_buffers_together` and
`get_reencode_jobs`: `buffers.into_iter().enumerate().map(dump_data).collect()`,
aborting on the first error. -/
def dumpAllBuffers (binaries : List (Option String × List Nat)) :
    List GltfBuffer → Nat → Except Error (List U8VecOrSlice)
  | [], _ => .ok []
  | b :: rest, idx =>
    match b.dump_data idx binaries with
    | .error e => .error e
    | .ok d =>
      match dumpAllBuffers binaries rest (idx + 1) with
      | .error e => .error e
      | .ok ds => .ok (d :: ds)

/-- `get_reencode_jobs` (`lib.rs` lines 235-321), additionally returning
the final lookup table (which the source drops on return); the public
result is the projection `get_reencode_jobs` below. -/
def get_reencode_jobs_aux (doc : GltfDocModel)
    (binaries : List (Option String × List Nat)) (params : Params)
    (guessMime : List Nat → Except Error String) :
    Except Error (List GltfTexture × List ImageReencodeJob ×
      List (GltfIndex GltfImage × GltfIndex GltfImage)) :=
  let textures := Input.get_list doc.textures
  let images := Input.get_list doc.images
  let buffer_views := Input.get_list doc.bufferViews
  let buffers := Input.get_list doc.buffers
  match dumpAllBuffers binaries buffers 0 with
  | .error e => .error e
  | .ok buffer_datas =>
    let srgb_texture_indices := get_srgb_texture_indices doc
    match reencodeLoop doc binaries guessMime params images buffer_views
        buffer_datas srgb_texture_indices textures 0 ⟨[], []⟩ with
    | .error e => .error e
    | .ok (new_textures, st) => .ok (new_textures, st.new_images, st.idxMap)

/-- `get_reencode_jobs` proper: `ReencodeJobs { new_textures, new_images }`. -/
def get_reencode_jobs (doc : GltfDocModel)
    (binaries : List (Option String × List Nat)) (params : Params)
    (guessMime : List Nat → Except Error String) : Except Error ReencodeJobs :=
  match get_reencode_jobs_aux doc binaries params guessMime with
  | .error e => .error e
  | .ok (new_textures, new_images, _) => .ok ⟨new_textures, new_images⟩

/-- The zero-padding inserted after appending a slice of length `n` to a
4-aligned buffer: `(4 - n % 4) % 4`. -/
def pad4 (n : Nat) : Nat := (4 - n % 4) % 4

/-- Invariant of the `lookup_old_img` state: the lookup table has one
entry per job, the entry at position `k` points at job `k`, and no
original image index is keyed twice. -/
def MapJobsInv (m : List (GltfIndex GltfImage × GltfIndex GltfImage))
    (numJobs : Nat) : Prop :=
  m.length = numJobs ∧
  (∀ k kv, m.get? k = some kv → kv.2 = GltfIndex.of k) ∧
  List.Pairwise (fun p q => p.1 ≠ q.1) m

/-- Example buffer view: view 0 of the packing-bug example (offset 0,
length 2 into buffer 0). -/
def exPackView : GltfBufferView :=
  { buffer := GltfIndex.of 0, byte_offset := 0, byte_length := 2,
    byte_stride := none, target := none,
    name := .null, extensions := .null, extras := .null }

/-- Example buffer: base64 data URI of "ABC" declaring `byteLength = 2`. -/
def exBase64Buffer : GltfBuffer :=
  { uri := some "data:application/octet-stream;base64,QUJD", byte_length := 2,
    name := .null, extensions := .null, extras := .null }

/-- Example buffer: data URI without the `;base64` marker whose payload is
the four characters `QUJD`, declaring `byteLength = 3`. -/
def exPlainDataUriBuffer : GltfBuffer :=
  { uri := some "data:application/octet-stream,QUJD", byte_length := 3,
    name := .null, extensions := .null, extras := .null }

/-- Example buffer view: offset 5, length 10 into buffer 0 (which will be
12 bytes long). -/
def exOOBView : GltfBufferView :=
  { buffer := GltfIndex.of 0, byte_offset := 5, byte_length := 10,
    byte_stride := none, target := none,
    name := .null, extensions := .null, extras := .null }

/-- Example buffer view whose `byteOffset + byteLength` overflows
`usize`: offset `2^63`, length `2^63` into buffer 0. -/
def exOverflowView : GltfBufferView :=
  { buffer := GltfIndex.of 0, byte_offset := 2 ^ 63, byte_length := 2 ^ 63,
    byte_stride := none, target := none,
    name := .null, extensions := .null, extras := .null }

/-- Example image with both `uri` and `bufferView` set. -/
def exBothImage : GltfImage :=
  { uri := some "u", mime_type := none, buffer_view := GltfIndex.of 1,
    name := .null, extensions := .null, extras := .null }

/-- Example packing input: two views of lengths 3 and 5. -/
def exPackPairs : List (GltfBufferView × List Nat) :=
  [({ exPackView with byte_length := 3 }, [1, 2, 3]),
   ({ exPackView with byte_length := 5 }, [4, 5, 6, 7, 8])]

/-- Example re-encode document: one image (external blob `i`, mime type
given), two textures both with `source = 0` and a `KHR_texture_basisu`
extension also pointing at image 0. -/
def exReencodeTexture : GltfTexture :=
  { sampler := GltfIndex.UNDEFINED, source := GltfIndex.of 0,
    name := .null,
    extensions := .obj [("KHR_texture_basisu", .obj [("source", .num 0)])],
    extras := .null }

/-- The document of the re-encode deduplication example. -/
def exReencodeDoc : GltfDocModel :=
  { buffers := none, bufferViews := none,
    images := some [{ uri := some "i", mime_type := some "image/png",
                      buffer_view := GltfIndex.UNDEFINED,
                      name := .null, extensions := .null, extras := .null }],
    textures := some [exReencodeTexture, exReencodeTexture],
    materials := none }

/-- The blob map of the re-encode deduplication example. -/
def exReencodeBinaries : List (Option String × List Nat) := [(some "i", [9, 9, 9])]

/-- Default-like parameters for the re-encode example. -/
def exParams : Params :=
  { uncompressed_format := ("jpeg" : ImageFormat),
    ktx_basis_compression_quality := none,
    ktx_transcode_to_bc1_or_bc3 := true }

/-- A mime guesser that always fails; the examples never reach it because
their images carry explicit mime types. -/
def exGuessMime : List Nat → Except Error String :=
  fun _ => .error .ImageCouldntFindFormat

/-! ## Theorems -/

/-- C10: `GltfIndex::of(p)` is defined iff `p` is not `usize::MAX`;
constructing from the raw maximum yields the undefined sentinel
(`is_undefined`, equal to `UNDEFINED`, same hash input), and equality and
hashing of indices depend only on the raw integer. -/
theorem gltfIndex_sentinel_spec {α : Type} (p q : Nat) (_hp : p < 2 ^ 64) :
    ((GltfIndex.of (α := α) p).is_defined = true ↔ p ≠ usizeMax) ∧
    GltfIndex.of (α := α) usizeMax = GltfIndex.UNDEFINED ∧
    (GltfIndex.of (α := α) usizeMax).is_undefined = true ∧
    (GltfIndex.of (α := α) usizeMax).hashData =
      (GltfIndex.UNDEFINED : GltfIndex α).hashData ∧
    (GltfIndex.of (α := α) p = GltfIndex.of q ↔ p = q) ∧
    (GltfIndex.of (α := α) p).hashData = p := by
  refine ⟨?_, rfl, ?_, rfl, ?_, rfl⟩
  · simp [GltfIndex.of, GltfIndex.is_defined, GltfIndex.is_undefined]
  · simp [GltfIndex.of, GltfIndex.is_undefined]
  · constructor
    · intro h
      exact congrArg GltfIndex.raw h
    · intro h
      rw [h]

/-- Witness for C10 at `p = 3`, `q = 3`, `α = Unit`. -/
theorem gltfIndex_sentinel_spec_witness :
    ((GltfIndex.of (α := Unit) 3).is_defined = true ↔ (3 : Nat) ≠ usizeMax) ∧
    GltfIndex.of (α := Unit) usizeMax = GltfIndex.UNDEFINED ∧
    (GltfIndex.of (α := Unit) usizeMax).is_undefined = true ∧
    (GltfIndex.of (α := Unit) usizeMax).hashData =
      (GltfIndex.UNDEFINED : GltfIndex Unit).hashData ∧
    (GltfIndex.of (α := Unit) 3 = GltfIndex.of 3 ↔ (3 : Nat) = 3) ∧
    (GltfIndex.of (α := Unit) 3).hashData = 3 :=
  gltfIndex_sentinel_spec (α := Unit) 3 3 (by norm_num)

/-- C6: the undefined index resolves to `None` for any list length; a
defined index with raw value `p` resolves to `Some p` when `p < len` and
fails with `IdxOOB{name, p, len}` otherwise. -/
theorem idx_within_spec {α : Type} (name : String) (len p : Nat)
    (hdef : (GltfIndex.of (α := α) p).is_defined = true) :
    (GltfIndex.UNDEFINED : GltfIndex α).idx_within name len = .ok none ∧
    (GltfIndex.of (α := α) p).idx_within name len =
      (if p < len then .ok (some p) else .error (.IdxOOB name p len)) := by
  constructor
  · simp [GltfIndex.idx_within, GltfIndex.UNDEFINED, GltfIndex.is_undefined]
  · have hpmax : p ≠ usizeMax := by
      simpa [GltfIndex.is_defined, GltfIndex.is_undefined, GltfIndex.of] using hdef
    rcases Nat.lt_or_ge p len with h | h
    · simp [GltfIndex.idx_within, GltfIndex.is_undefined, GltfIndex.of, hpmax,
        Nat.not_le.mpr h, h]
    · simp [GltfIndex.idx_within, GltfIndex.is_undefined, GltfIndex.of, hpmax,
        h, Nat.not_lt.mpr h]

/-- Witness for C6: undefined against the empty list, an in-bounds
defined index, and an out-of-bounds defined index. -/
theorem idx_within_spec_witness :
    (GltfIndex.UNDEFINED : GltfIndex Unit).idx_within "images" 0 = .ok none ∧
    (GltfIndex.of (α := Unit) 1).idx_within "images" 3 = .ok (some 1) ∧
    (GltfIndex.of (α := Unit) 5).idx_within "images" 3 =
      .error (.IdxOOB "images" 5 3) := by
  obtain ⟨h0, _⟩ := idx_within_spec (α := Unit) "images" 0 1 (by decide)
  obtain ⟨_, h1⟩ := idx_within_spec (α := Unit) "images" 3 1 (by decide)
  obtain ⟨_, h5⟩ := idx_within_spec (α := Unit) "images" 3 5 (by decide)
  refine ⟨h0, ?_, ?_⟩
  · rw [h1]; rfl
  · rw [h5]; rfl

/-- C4: at the failing input (a defined index looked up against an absent
document key), `Input::get_gltf_index` returns `Ok(None)` — it does not
fail with `IdxOOB` as the absent-key-as-empty-list reading requires (the
source carries a `TODO` acknowledging the wrong error here). -/
theorem get_gltf_index_absent_list_behavior :
    Input.get_gltf_index (α := GltfTexture) none (GltfIndex.of 0) "textures" =
      .ok none ∧
    ∀ e : Error,
      Input.get_gltf_index (α := GltfTexture) none (GltfIndex.of 0) "textures" ≠
        .error e :=
  ⟨rfl, fun _ h => Except.noConfusion h⟩

/-- C7 (counterexample): the claim's bounds guarantee is not
unconditional.  At `byteOffset = byteLength = 2^63` against a 12-byte
buffer the mathematical sum `2^64` exceeds 12, so the claim demands
`BufferViewSizeOOB{12, 2^63, 2^63}`; but the `usize` addition wraps to
`0`, passes the `> buffer.len()` check, and the slice indexing
`buffer[2^63..0]` panics instead of returning the bounds error. -/
theorem slice_from_overflow_counterexample :
    exOverflowView.slice_from [U8VecOrSlice.V (List.replicate 12 0)] =
      .error (.Panic "slice index starts after it ends") ∧
    (.error (.Panic "slice index starts after it ends") :
        Except Error (List Nat)) ≠
      .error (.BufferViewSizeOOB 12 (2 ^ 63) (2 ^ 63)) :=
  ⟨rfl, fun h => Error.noConfusion (Except.error.inj h)⟩

/-- C7 (amended): provided `byteOffset + byteLength` does not overflow
`usize`, and given the view's buffer resolves to `buffer`, slicing fails
with `BufferViewSizeOOB{buffer.len, byteOffset, byteLength}` when
`byteOffset + byteLength` exceeds the buffer's length, and otherwise
returns exactly the bytes `[byteOffset, byteOffset + byteLength)`. -/
theorem slice_from_spec (v : GltfBufferView) (buffer_datas : List U8VecOrSlice)
    (buffer : U8VecOrSlice)
    (hbuf : gltf_index_required buffer_datas v.buffer.retag "buffers" = .ok buffer)
    (hsum : v.byte_offset + v.byte_length < usizeSize) :
    v.slice_from buffer_datas =
      (if v.byte_offset + v.byte_length > buffer.len then
        .error (.BufferViewSizeOOB buffer.len v.byte_offset v.byte_length)
      else
        .ok ((buffer.bytes.drop v.byte_offset).take v.byte_length)) := by
  unfold GltfBufferView.slice_from
  rw [hbuf]
  have htot : (v.byte_offset + v.byte_length) % usizeSize =
      v.byte_offset + v.byte_length := Nat.mod_eq_of_lt hsum
  simp only [htot]
  by_cases h : v.byte_offset + v.byte_length > buffer.len
  · rw [if_pos h, if_pos h]
  · rw [if_neg h, if_neg h, if_pos (Nat.le_add_right _ _),
      Nat.add_sub_cancel_left]

/-- Witness for C7: `byteOffset = 5`, `byteLength = 10` against a
12-byte buffer fails with `BufferViewSizeOOB{12, 5, 10}`. -/
theorem slice_from_spec_witness :
    exOOBView.slice_from [U8VecOrSlice.V (List.replicate 12 0)] =
      .error (.BufferViewSizeOOB 12 5 10) := by
  have h := slice_from_spec exOOBView [U8VecOrSlice.V (List.replicate 12 0)]
    (U8VecOrSlice.V (List.replicate 12 0)) rfl (by decide)
  rw [h]
  rfl

/-- C8: an image resolves only when exactly one of `uri` and `bufferView`
is set; with both set, or neither set, `dump_data` fails with
`ImageNeedsDataUriXorBufferView` carrying the uri and the bufferView
index. -/
theorem image_dump_data_xor (img : GltfImage) (buffer_views : List GltfBufferView)
    (buffer_datas : List U8VecOrSlice) (binaries : List (Option String × List Nat))
    (h : (img.uri.isSome = true ∧ img.buffer_view.is_defined = true) ∨
         (img.uri = none ∧ img.buffer_view = GltfIndex.UNDEFINED)) :
    img.dump_data buffer_views buffer_datas binaries =
      .error (.ImageNeedsDataUriXorBufferView img.uri img.buffer_view) := by
  unfold GltfImage.dump_data
  rcases h with ⟨hsome, hdef⟩ | ⟨hnone, hundef⟩
  · obtain ⟨uri, huri⟩ := Option.isSome_iff_exists.mp hsome
    rw [huri]
    have hne : ¬ img.buffer_view = GltfIndex.UNDEFINED := by
      intro hEq
      rw [hEq] at hdef
      simp [GltfIndex.is_defined, GltfIndex.is_undefined, GltfIndex.UNDEFINED] at hdef
    simp [hne]
  · rw [hnone]
    have hdef : img.buffer_view.is_defined = false := by
      rw [hundef]
      simp [GltfIndex.is_defined, GltfIndex.is_undefined, GltfIndex.UNDEFINED]
    simp [hdef]

/-- Witness for C8: an image with both `uri` and `bufferView` set fails
with the mutual-exclusion error. -/
theorem image_dump_data_xor_witness :
    exBothImage.dump_data [] [] [] =
      .error (.ImageNeedsDataUriXorBufferView (some "u") (GltfIndex.of 1)) := by
  have h := image_dump_data_xor exBothImage [] [] [] (Or.inl ⟨rfl, by decide⟩)
  exact h

/-- C1 (evaluation at the failing input): on the single pair
(view `{buffer: 0, byteOffset: 0, byteLength: 2}`, slice `[0x41, 0x42]`)
`pack_buffer_views` succeeds but sets the rewritten view's `byteOffset`
to `data.len() = 2` — not to the output length before the append, `0` —
so slicing the packed buffer `[0x41, 0x42, 0, 0]` at the rewritten
`(byteOffset, byteLength) = (2, 2)` yields `[0, 0]`, not the original
slice `[0x41, 0x42]`: the round-trip property fails. -/
theorem pack_byte_offset_bug :
    pack_buffer_views [.ok (exPackView, [0x41, 0x42])] =
      .ok ([{ exPackView with byte_offset := 2 }], [0x41, 0x42, 0, 0]) ∧
    (2 : Nat) ≠ 0 ∧
    (([0x41, 0x42, 0, 0] : List Nat).drop 2).take 2 = [0, 0] ∧
    ([0, 0] : List Nat) ≠ [0x41, 0x42] :=
  ⟨rfl, by decide, rfl, by decide⟩

/-- C2 (evaluation at the failing input): a buffer whose uri is
`data:application/octet-stream;base64,QUJD` (decoding to the 3 bytes
`ABC`) with declared `byteLength = 2` does not resolve to the first two
bytes `[0x41, 0x42]`: the truncation loop in `of_owned_vec` runs
`len - v.len()` times, a `usize` underflow, which (under release-mode
wrapping) pops every byte and yields the empty vector (in debug builds it
panics instead). -/
theorem buffer_truncation_bug :
    exBase64Buffer.dump_data 0 [] = .ok (U8VecOrSlice.V []) ∧
    (U8VecOrSlice.V []).bytes ≠ [0x41, 0x42] :=
  ⟨rfl, by decide⟩

/-- C3 (counterexample): for the accepted data URI
`data:application/octet-stream,QUJD` — no `;base64` marker — the claim
says the remainder after the comma is used directly as the intended
bytes, which (after truncation to the declared `byteLength = 3`) would be
`"QUJ" = [0x51, 0x55, 0x4A]`; the code instead base64-decodes the payload
and resolves to `[0x41, 0x42, 0x43]`. -/
theorem data_uri_no_marker_counterexample :
    exPlainDataUriBuffer.dump_data 0 [] =
      .ok (U8VecOrSlice.V [0x41, 0x42, 0x43]) ∧
    (U8VecOrSlice.V [0x41, 0x42, 0x43]).bytes ≠ [0x51, 0x55, 0x4A] :=
  ⟨rfl, by decide⟩

/-- C3 (amended): for every accepted data URI — either of the two
permitted media types, with or without the `;base64` marker — the payload
after the separator is base64-decoded (failing with `BufferUriBadBase64`
on malformed base64, via the error propagation of `base64_decode`); the
marker only changes which separator is stripped, never the decoding. -/
theorem data_uri_payload_base64_decoded_regardless (payload : List Char) (n : Nat)
    (idx : Nat) (binaries : List (Option String × List Nat)) (nm ext extra : Json) :
    base64str_from_data_uri ("data:application/octet-stream," ++ String.mk payload) =
      some (String.mk payload) ∧
    base64str_from_data_uri
        ("data:application/octet-stream;base64," ++ String.mk payload) =
      some (String.mk payload) ∧
    base64str_from_data_uri ("data:application/gltf-buffer," ++ String.mk payload) =
      some (String.mk payload) ∧
    base64str_from_data_uri
        ("data:application/gltf-buffer;base64," ++ String.mk payload) =
      some (String.mk payload) ∧
    GltfBuffer.dump_data
        ⟨some ("data:application/octet-stream," ++ String.mk payload), n, nm, ext, extra⟩
        idx binaries =
      (match base64_decode (String.mk payload) with
       | .error e => .error e
       | .ok v => U8VecOrSlice.of_owned_vec v n) ∧
    GltfBuffer.dump_data
        ⟨some ("data:application/gltf-buffer," ++ String.mk payload), n, nm, ext, extra⟩
        idx binaries =
      (match base64_decode (String.mk payload) with
       | .error e => .error e
       | .ok v => U8VecOrSlice.of_owned_vec v n) ∧
    GltfBuffer.dump_data
        ⟨some ("data:application/octet-stream," ++ String.mk payload), n, nm, ext, extra⟩
        idx binaries =
      GltfBuffer.dump_data
        ⟨some ("data:application/octet-stream;base64," ++ String.mk payload), n, nm,
          ext, extra⟩
        idx binaries ∧
    GltfBuffer.dump_data
        ⟨some ("data:application/gltf-buffer," ++ String.mk payload), n, nm, ext, extra⟩
        idx binaries =
      GltfBuffer.dump_data
        ⟨some ("data:application/gltf-buffer;base64," ++ String.mk payload), n, nm,
          ext, extra⟩
        idx binaries :=
  ⟨rfl, rfl, rfl, rfl, rfl, rfl, rfl, rfl⟩

/-- The packing loop preserves 4-alignment of the output buffer and adds
`data.len() + pad4 data.len()` bytes per pair. -/
theorem pack_loop_length (pairs : List (GltfBufferView × List Nat))
    (vacc : List GltfBufferView) (acc : List Nat)
    (views : List GltfBufferView) (buf : List Nat)
    (hacc : acc.length % 4 = 0)
    (hrun : pack_buffer_views_loop (pairs.map .ok) vacc acc = .ok (views, buf)) :
    buf.length % 4 = 0 ∧
    buf.length = acc.length +
      (pairs.map (fun p => p.2.length + pad4 p.2.length)).sum := by
  induction pairs generalizing vacc acc with
  | nil =>
    simp only [List.map_nil, pack_buffer_views_loop, Except.ok.injEq,
      Prod.mk.injEq] at hrun
    obtain ⟨-, hbuf⟩ := hrun
    subst hbuf
    simpa using hacc
  | cons p rest ih =>
    simp only [List.map_cons, pack_buffer_views_loop] at hrun
    have hlen1 : (acc ++ p.2).length = acc.length + p.2.length :=
      List.length_append acc p.2
    by_cases hmod : (acc ++ p.2).length % 4 = 0
    · rw [if_neg (by simpa using hmod)] at hrun
      obtain ⟨h1, h2⟩ := ih _ _ hmod hrun
      refine ⟨h1, ?_⟩
      rw [h2, hlen1]
      rw [hlen1] at hmod
      simp only [List.map_cons, List.sum_cons, pad4]
      omega
    · rw [if_pos (by simpa using hmod)] at hrun
      have hlen2 : ((acc ++ p.2) ++
          List.replicate (4 - (acc ++ p.2).length % 4) 0).length =
          acc.length + p.2.length + (4 - (acc.length + p.2.length) % 4) := by
        rw [List.length_append (acc ++ p.2), List.length_replicate, hlen1]
      have hmod2 : ((acc ++ p.2) ++
          List.replicate (4 - (acc ++ p.2).length % 4) 0).length % 4 = 0 := by
        rw [hlen2]
        rw [hlen1] at hmod
        omega
      obtain ⟨h1, h2⟩ := ih _ _ hmod2 hrun
      refine ⟨h1, ?_⟩
      rw [h2, hlen2]
      rw [hlen1] at hmod
      simp only [List.map_cons, List.sum_cons, pad4]
      omega

/-- Splitting the per-pair `length + padding` sum into the sum of view
byte lengths and the sum of paddings, given slices match view lengths. -/
theorem sum_len_pad_split (pairs : List (GltfBufferView × List Nat))
    (hlen : ∀ p ∈ pairs, p.2.length = p.1.byte_length) :
    (pairs.map (fun p => p.2.length + pad4 p.2.length)).sum =
      (pairs.map (fun p => p.1.byte_length)).sum +
      (pairs.map (fun p => pad4 p.1.byte_length)).sum := by
  induction pairs with
  | nil => simp
  | cons p rest ih =>
    have hp := hlen p (List.mem_cons_self p rest)
    have hrest : ∀ q ∈ rest, q.2.length = q.1.byte_length :=
      fun q hq => hlen q (List.mem_cons_of_mem p hq)
    simp only [List.map_cons, List.sum_cons, hp, ih hrest]
    omega

/-- C9: for any successfully packed input whose slices have the views'
declared byte lengths, the packed length is a multiple of 4 and equals
the sum of the view byte lengths plus the total inserted zero padding,
where each pair inserts exactly `(4 - len % 4) % 4` padding bytes. -/
theorem pack_length_aligned (pairs : List (GltfBufferView × List Nat))
    (views : List GltfBufferView) (buf : List Nat)
    (hlen : ∀ p ∈ pairs, p.2.length = p.1.byte_length)
    (hrun : pack_buffer_views (pairs.map .ok) = .ok (views, buf)) :
    buf.length % 4 = 0 ∧
    buf.length = (pairs.map (fun p => p.1.byte_length)).sum +
      (pairs.map (fun p => pad4 p.1.byte_length)).sum := by
  obtain ⟨h1, h2⟩ := pack_loop_length pairs [] [] views buf (by simp) hrun
  refine ⟨h1, ?_⟩
  rw [h2, sum_len_pad_split pairs hlen]
  simp

/-- Witness for C9: packing slices of lengths 3 and 5 yields a 12-byte
buffer (3 + 1 padding + 5 + 3 padding), a multiple of 4. -/
theorem pack_length_aligned_witness :
    ([1, 2, 3, 0, 4, 5, 6, 7, 8, 0, 0, 0] : List Nat).length % 4 = 0 ∧
    ([1, 2, 3, 0, 4, 5, 6, 7, 8, 0, 0, 0] : List Nat).length =
      (exPackPairs.map (fun p => p.1.byte_length)).sum +
      (exPackPairs.map (fun p => pad4 p.1.byte_length)).sum := by
  have h := pack_length_aligned exPackPairs
    [{ exPackView with byte_length := 3, byte_offset := 3 },
     { exPackView with byte_length := 5, byte_offset := 5 }]
    [1, 2, 3, 0, 4, 5, 6, 7, 8, 0, 0, 0]
    (by
      intro p hp
      simp only [exPackPairs, List.mem_cons, List.not_mem_nil, or_false] at hp
      rcases hp with h | h <;> subst h <;> rfl)
    rfl
  exact h

/-- Inserting a fresh key at the end of the table makes it found. -/
theorem mapFind_append_fresh (m : List (GltfIndex GltfImage × GltfIndex GltfImage))
    (k v : GltfIndex GltfImage) (h : mapFind m k = none) :
    mapFind (m ++ [(k, v)]) k = some v := by
  induction m with
  | nil => simp [mapFind]
  | cons p rest ih =>
    obtain ⟨a, b⟩ := p
    simp only [mapFind] at h
    by_cases hk : a = k
    · rw [if_pos hk] at h
      exact absurd h (by simp)
    · rw [if_neg hk] at h
      simpa only [List.cons_append, mapFind, if_neg hk] using ih h

/-- An existing binding survives appending entries to the table. -/
theorem mapFind_append_stable (m l : List (GltfIndex GltfImage × GltfIndex GltfImage))
    (k v : GltfIndex GltfImage) (h : mapFind m k = some v) :
    mapFind (m ++ l) k = some v := by
  induction m with
  | nil => simp [mapFind] at h
  | cons p rest ih =>
    obtain ⟨a, b⟩ := p
    simp only [mapFind, List.cons_append] at h ⊢
    by_cases hk : a = k
    · rwa [if_pos hk] at h ⊢
    · rw [if_neg hk] at h ⊢
      exact ih h

/-- A key that is not found is not among the table's keys. -/
theorem mapFind_none_keys (m : List (GltfIndex GltfImage × GltfIndex GltfImage))
    (k : GltfIndex GltfImage) (h : mapFind m k = none) :
    ∀ p ∈ m, p.1 ≠ k := by
  induction m with
  | nil => simp
  | cons q rest ih =>
    obtain ⟨a, b⟩ := q
    simp only [mapFind] at h
    by_cases hk : a = k
    · rw [if_pos hk] at h
      exact absurd h (by simp)
    · rw [if_neg hk] at h
      intro p hp
      rcases List.mem_cons.mp hp with hEq | hmem
      · subst hEq
        exact hk
      · exact ih h p hmem

/-- A found binding is an entry of the table. -/
theorem mapFind_mem (m : List (GltfIndex GltfImage × GltfIndex GltfImage))
    (k v : GltfIndex GltfImage) (h : mapFind m k = some v) : (k, v) ∈ m := by
  induction m with
  | nil => simp [mapFind] at h
  | cons q rest ih =>
    obtain ⟨a, b⟩ := q
    simp only [mapFind] at h
    by_cases hk : a = k
    · rw [if_pos hk] at h
      have hb : b = v := by injection h
      subst hk
      subst hb
      exact List.mem_cons_self _ _
    · rw [if_neg hk] at h
      exact List.mem_cons_of_mem _ (ih h)

/-- `set_texture_ktx_source` never changes the texture's `source`. -/
theorem set_texture_ktx_source_source (t : GltfTexture) (n : GltfIndex GltfImage)
    (t' : GltfTexture) (h : set_texture_ktx_source t n = .ok t') :
    t'.source = t.source := by
  unfold set_texture_ktx_source at h
  split at h
  · split at h
    · simp only [Except.ok.injEq] at h
      subst h
      rfl
    · simp only [Except.ok.injEq] at h
      subst h
      rfl
    · exact absurd h (by simp)
  · exact absurd h (by simp)

/-- `lookup_old_img` returns an index bound to `old` in the resulting
table, preserves existing bindings, and preserves the table/jobs
invariant. -/
theorem lookup_old_img_state (images : List GltfImage) (st st' : ReencodeState)
    (old : GltfIndex GltfImage) (srgb : Bool) (d : List Nat) (mt : String)
    (fmt : ImageReencodeFormat) (n : GltfIndex GltfImage)
    (h : lookup_old_img images st old srgb d mt fmt = .ok (st', n)) :
    mapFind st'.idxMap old = some n ∧
    (∀ k v, mapFind st.idxMap k = some v → mapFind st'.idxMap k = some v) ∧
    (MapJobsInv st.idxMap st.new_images.length →
      MapJobsInv st'.idxMap st'.new_images.length) := by
  unfold lookup_old_img at h
  cases hfind : mapFind st.idxMap old with
  | some cached =>
    rw [hfind] at h
    simp only [Except.ok.injEq, Prod.mk.injEq] at h
    obtain ⟨hst, hn⟩ := h
    subst hst
    subst hn
    exact ⟨hfind, fun _ _ hkv => hkv, fun hinv => hinv⟩
  | none =>
    rw [hfind] at h
    cases hreq : gltf_index_required images old "images" with
    | error e =>
      rw [hreq] at h
      exact absurd h (by simp)
    | ok img =>
      rw [hreq] at h
      simp only [Except.ok.injEq, Prod.mk.injEq] at h
      obtain ⟨hst, hn⟩ := h
      subst hst
      subst hn
      refine ⟨mapFind_append_fresh _ _ _ hfind,
        fun k v hkv => mapFind_append_stable _ _ _ _ hkv, ?_⟩
      rintro ⟨hlen, hpos, hpair⟩
      refine ⟨by simp [hlen], ?_, ?_⟩
      · intro k kv hk
        by_cases hklt : k < st.idxMap.length
        · rw [List.get?_append hklt] at hk
          exact hpos k kv hk
        · have hge : st.idxMap.length ≤ k := Nat.le_of_not_lt hklt
          rw [List.get?_append_right hge] at hk
          have hk0 : k - st.idxMap.length = 0 := by
            by_contra hne
            rcases Nat.exists_eq_succ_of_ne_zero hne with ⟨j, hj⟩
            rw [hj] at hk
            simp at hk
          rw [hk0] at hk
          simp only [List.get?] at hk
          have hkv2 : kv = (old, GltfIndex.of st.new_images.length) := by
            injection hk with hk'
            exact hk'.symm
          have hkeq : k = st.idxMap.length := by omega
          rw [hkv2, hkeq, hlen]
      · rw [List.pairwise_append]
        refine ⟨hpair, by simp, ?_⟩
        intro a ha b hb
        simp only [List.mem_singleton] at hb
        subst hb
        exact mapFind_none_keys _ _ hfind a ha

/-- `processTexture` resolves the texture's rewritten `source` through
the lookup table, preserves existing bindings, and preserves the
table/jobs invariant. -/
theorem processTexture_state (doc : GltfDocModel)
    (binaries : List (Option String × List Nat))
    (guessMime : List Nat → Except Error String) (params : Params)
    (images : List GltfImage) (buffer_views : List GltfBufferView)
    (buffer_datas : List U8VecOrSlice)
    (srgb : List (GltfIndex GltfTexture))
    (st st' : ReencodeState) (tex_idx : Nat) (tex tex' : GltfTexture)
    (h : processTexture doc binaries guessMime params images buffer_views
      buffer_datas srgb st tex_idx tex = .ok (st', tex')) :
    (∃ n, mapFind st'.idxMap tex.source = some n ∧ tex'.source = n) ∧
    (∀ k v, mapFind st.idxMap k = some v → mapFind st'.idxMap k = some v) ∧
    (MapJobsInv st.idxMap st.new_images.length →
      MapJobsInv st'.idxMap st'.new_images.length) := by
  simp only [processTexture] at h
  split at h
  · exact absurd h (by simp)
  · exact absurd h (by simp)
  · rename_i d mt _
    split at h
    · exact absurd h (by simp)
    · rename_i st1 n1 heq1
      split at h
      · exact absurd h (by simp)
      · rename_i st2 n2 heq2
        split at h
        · exact absurd h (by simp)
        · rename_i tex2 heq3
          simp only [Except.ok.injEq, Prod.mk.injEq] at h
          obtain ⟨hst, htex⟩ := h
          subst hst
          subst htex
          obtain ⟨hfound1, hstab1, hinv1⟩ :=
            lookup_old_img_state _ _ _ _ _ _ _ _ _ heq1
          obtain ⟨_, hstab2, hinv2⟩ :=
            lookup_old_img_state _ _ _ _ _ _ _ _ _ heq2
          have hsrc2 : tex2.source = n1 :=
            set_texture_ktx_source_source _ _ _ heq3
          exact ⟨⟨n1, hstab2 _ _ hfound1, hsrc2⟩,
            fun k v hkv => hstab2 _ _ (hstab1 _ _ hkv),
            fun hinv => hinv2 (hinv1 hinv)⟩

/-- The texture loop: bindings are stable, the invariant is preserved,
the rewritten texture list has the input's length, and every texture's
rewritten `source` is the final table's binding of its original
`source`. -/
theorem reencodeLoop_state (doc : GltfDocModel)
    (binaries : List (Option String × List Nat))
    (guessMime : List Nat → Except Error String) (params : Params)
    (images : List GltfImage) (buffer_views : List GltfBufferView)
    (buffer_datas : List U8VecOrSlice)
    (srgb : List (GltfIndex GltfTexture))
    (texs : List GltfTexture) (tex_idx : Nat) (st st' : ReencodeState)
    (ntex : List GltfTexture)
    (h : reencodeLoop doc binaries guessMime params images buffer_views
      buffer_datas srgb texs tex_idx st = .ok (ntex, st')) :
    (∀ k v, mapFind st.idxMap k = some v → mapFind st'.idxMap k = some v) ∧
    (MapJobsInv st.idxMap st.new_images.length →
      MapJobsInv st'.idxMap st'.new_images.length) ∧
    ntex.length = texs.length ∧
    ∀ t tex, texs.get? t = some tex →
      ∃ n tex2, ntex.get? t = some tex2 ∧
        mapFind st'.idxMap tex.source = some n ∧ tex2.source = n := by
  induction texs generalizing tex_idx st ntex with
  | nil =>
    simp only [reencodeLoop, Except.ok.injEq, Prod.mk.injEq] at h
    obtain ⟨hn, hs⟩ := h
    subst hn
    subst hs
    exact ⟨fun _ _ hkv => hkv, fun hinv => hinv, rfl, by simp⟩
  | cons tex rest ih =>
    simp only [reencodeLoop] at h
    split at h
    · exact absurd h (by simp)
    · rename_i st1 tex1 heq1
      split at h
      · exact absurd h (by simp)
      · rename_i texs2 st2 heq2
        simp only [Except.ok.injEq, Prod.mk.injEq] at h
        obtain ⟨hn, hs⟩ := h
        subst hn
        subst hs
        obtain ⟨⟨n1, hfound1, hsrc1⟩, hstab1, hinv1⟩ :=
          processTexture_state _ _ _ _ _ _ _ _ _ _ _ _ _ heq1
        obtain ⟨hstab2, hinv2, hlen2, hall2⟩ := ih _ _ _ heq2
        refine ⟨fun k v hkv => hstab2 _ _ (hstab1 _ _ hkv),
          fun hinv => hinv2 (hinv1 hinv), by simp [hlen2], ?_⟩
        intro t tx htx
        cases t with
        | zero =>
          simp only [List.get?] at htx
          injection htx with htx'
          subst htx'
          exact ⟨n1, tex1, rfl, hstab2 _ _ hfound1, hsrc1⟩
        | succ t' =>
          simp only [List.get?] at htx
          obtain ⟨n, tex2, hget, hfound, hsrc⟩ := hall2 t' tx htx
          exact ⟨n, tex2, hget, hfound, hsrc⟩

/-- C5: in a successful `get_reencode_jobs` run, any two textures whose
original `source` fields reference the same image index end up with the
same rewritten `source`, the shared index is bound to exactly one job
(the lookup table has distinct keys, one entry per job, and its entry at
position `k` is job `k`), and that job index is in range. -/
theorem reencode_jobs_dedup (doc : GltfDocModel)
    (binaries : List (Option String × List Nat)) (params : Params)
    (guessMime : List Nat → Except Error String)
    (ntex : List GltfTexture) (jobs : List ImageReencodeJob)
    (m : List (GltfIndex GltfImage × GltfIndex GltfImage))
    (i j : Nat) (ti tj : GltfTexture)
    (hrun : get_reencode_jobs_aux doc binaries params guessMime =
      .ok (ntex, jobs, m))
    (hi : (Input.get_list doc.textures).get? i = some ti)
    (hj : (Input.get_list doc.textures).get? j = some tj)
    (hsame : ti.source = tj.source) :
    ∃ n ti' tj',
      mapFind m ti.source = some n ∧
      ntex.get? i = some ti' ∧ ti'.source = n ∧
      ntex.get? j = some tj' ∧ tj'.source = n ∧
      n.raw < jobs.length ∧
      jobs.length = m.length ∧
      List.Pairwise (fun p q => p.1 ≠ q.1) m ∧
      (∀ k kv, m.get? k = some kv → kv.2 = GltfIndex.of k) := by
  simp only [get_reencode_jobs_aux] at hrun
  split at hrun
  · exact absurd hrun (by simp)
  · rename_i buffer_datas _
    split at hrun
    · exact absurd hrun (by simp)
    · rename_i ntex0 st heq
      simp only [Except.ok.injEq, Prod.mk.injEq] at hrun
      obtain ⟨hn, hjobs, hm⟩ := hrun
      subst hn
      subst hjobs
      subst hm
      obtain ⟨-, hinv, -, hall⟩ := reencodeLoop_state _ _ _ _ _ _ _ _ _ _ _ _ _ heq
      obtain ⟨hlen, hpos, hpair⟩ := hinv ⟨rfl, by simp, by simp⟩
      obtain ⟨ni, ti', hgi, hfi, hsi⟩ := hall i ti hi
      obtain ⟨nj, tj', hgj, hfj, hsj⟩ := hall j tj hj
      have hnij : ni = nj := by
        rw [hsame] at hfi
        rw [hfi] at hfj
        injection hfj
      subst hnij
      have hmem : (ti.source, ni) ∈ st.idxMap := mapFind_mem _ _ _ hfi
      obtain ⟨k, hk⟩ := List.get?_of_mem hmem
      have hklt : k < st.idxMap.length := by
        by_contra hge
        rw [List.get?_eq_none.mpr (Nat.le_of_not_lt hge)] at hk
        exact Option.noConfusion hk
      have hval : (ti.source, ni).2 = GltfIndex.of k := hpos k _ hk
      have hraw : ni.raw < st.idxMap.length := by
        have : ni = GltfIndex.of k := hval
        rw [this]
        exact hklt
      exact ⟨ni, ti', tj', hfi, hgi, hsi, hgj, hsj, by rw [hlen] at hraw; exact hraw,
        hlen.symm, hpair, hpos⟩

/-- Witness for C5: two textures share `source = 0`; the run succeeds,
both rewritten sources agree, and image 0 is keyed to exactly one job. -/
theorem reencode_jobs_dedup_witness :
    ∃ R : List GltfTexture × List ImageReencodeJob ×
        List (GltfIndex GltfImage × GltfIndex GltfImage),
      get_reencode_jobs_aux exReencodeDoc exReencodeBinaries exParams exGuessMime =
        .ok R ∧
      ∃ n ti' tj',
        mapFind R.2.2 exReencodeTexture.source = some n ∧
        R.1.get? 0 = some ti' ∧ ti'.source = n ∧
        R.1.get? 1 = some tj' ∧ tj'.source = n ∧
        n.raw < R.2.1.length ∧
        R.2.1.length = R.2.2.length ∧
        List.Pairwise (fun p q => p.1 ≠ q.1) R.2.2 ∧
        (∀ k kv, R.2.2.get? k = some kv → kv.2 = GltfIndex.of k) := by
  refine ⟨_, rfl, ?_⟩
  exact reencode_jobs_dedup exReencodeDoc exReencodeBinaries exParams exGuessMime
    _ _ _ 0 1 exReencodeTexture exReencodeTexture rfl rfl rfl rfl

end GltfKtxer
